import Mathlib

/-!
Shallow embedding of the `SpotifyAPI` client of `spotify-backup.py`
(repository blekmus/spotify-backup), and proofs about its OAuth
authorization flow, paginated fetch engine and retry policy.

Python strings are modelled as lists of characters (`PyStr`), Python
dictionaries with string values as association lists, JSON null cursors as
`Option`, and the effectful parts (HTTP requests, `time.sleep`,
`sys.exit`, raised exceptions) are made explicit in the return types.
External library calls (`urllib.parse.urlencode`, `base64.b64encode`, the
HTTP transport itself) are taken as parameters, exactly as the code takes
them as black boxes.
-/

namespace SpotifyBackup

/-- A Python string, modelled as its sequence of characters. -/
abbrev PyStr := List Char

/-- Python's `s.startswith(p)`. -/
def pyStartswith (s p : PyStr) : Bool := p.isPrefixOf s

/-- Whether `pat` occurs as a contiguous substring (Python's `pat in s`). -/
def containsSub (pat : PyStr) : PyStr → Bool
  | [] => pat.isEmpty
  | c :: cs => pat.isPrefixOf (c :: cs) || containsSub pat cs

/-- The client object: `SpotifyAPI.__init__` stores the OAuth bearer token
in `self._auth`. -/
structure SpotifyAPI where
  _auth : PyStr
deriving DecidableEq

/-! ## Paginated responses (`SpotifyAPI.list`, `SpotifyAPI.list_artists`) -/

/-- One page of a cursor-paginated Spotify response: the `items` list, the
`next` cursor (a URL, or `null` = `none` on the last page) and the
server-reported `total`.  `υ` is the type of URLs, `α` the type of the
opaque JSON records in `items`. -/
structure Page (υ α : Type) where
  items : List α
  next : Option υ
  total : Nat
deriving DecidableEq

/-- The `while response["next"]:` loop of `SpotifyAPI.list`: as long as the
cursor is non-null, fetch the next page and append its items.  `fetch`
is the (abstracted) `self.get`; `fuel` bounds the number of iterations so
that the function is total — every theorem below holds for all
sufficiently large `fuel`, which is exactly termination of the loop. -/
def listLoop {υ α : Type} (fetch : υ → Page υ α) :
    Nat → Page υ α → List α → List α
  | 0, _, items => items
  | fuel + 1, response, items =>
    match response.next with
    | none => items
    | some u =>
      let response2 := fetch u
      listLoop fetch fuel response2 (items ++ response2.items)

/-- Model of `SpotifyAPI.list(url, params)`: fetch the seed page, then follow the
`next` cursor, accumulating `items` in traversal order. -/
def list {υ α : Type} (fetch : υ → Page υ α) (fuel : Nat) (url : υ) :
    List α :=
  let response := fetch url
  listLoop fetch fuel response response.items

/-- A canonical well-formed paginated resource: the server's pages are
`ps`, page `i` holds `ps[i]` and its `next` cursor points to page `i + 1`,
except on the last page where it is null.  URLs are page indices. -/
def pageAt {α : Type} (ps : List (List α)) (total : Nat) (i : Nat) :
    Page Nat α :=
  { items := ps.getD i [],
    next := if i + 1 < ps.length then some (i + 1) else none,
    total := total }

/-- The followed-artists responses wrap the paginated envelope one level
deeper, under an `artists` key (`response['artists']["items"]` etc.). -/
structure ArtistsResponse (υ α : Type) where
  artists : Page υ α
deriving DecidableEq

/-- The `while response['artists']["next"]:` loop of
`SpotifyAPI.list_artists`. -/
def list_artists_loop {υ α : Type} (fetch : υ → ArtistsResponse υ α) :
    Nat → ArtistsResponse υ α → List α → List α
  | 0, _, items => items
  | fuel + 1, response, items =>
    match response.artists.next with
    | none => items
    | some u =>
      let response2 := fetch u
      list_artists_loop fetch fuel response2 (items ++ response2.artists.items)

/-- Model of `SpotifyAPI.list_artists(url, params)`: like `list`, but every field
access goes through the `artists` wrapper first. -/
def list_artists {υ α : Type} (fetch : υ → ArtistsResponse υ α)
    (fuel : Nat) (url : υ) : List α :=
  let response := fetch url
  list_artists_loop fetch fuel response response.artists.items

/-- The canonical nested resource for `list_artists`: `pageAt` wrapped
under the `artists` key. -/
def artistsPageAt {α : Type} (ps : List (List α)) (total : Nat) (i : Nat) :
    ArtistsResponse Nat α :=
  ⟨pageAt ps total i⟩

/-! ## Single-page fetch with retry (`SpotifyAPI.get`) -/

/-- How a call to `SpotifyAPI.get` ends: a parsed JSON object is returned,
or `sys.exit(code)` terminates the whole process. -/
inductive GetResult (J : Type) where
  | ok (value : J)
  | exit (code : Nat)
deriving DecidableEq

/-- Observable trace of one `SpotifyAPI.get` call: its final outcome, how
many attempts (request + parse) were performed, and the durations of the
`time.sleep` calls issued, in order. -/
structure GetTrace (J : Type) where
  result : GetResult J
  attempts : Nat
  sleeps : List Nat
deriving DecidableEq

/-- The `for _ in range(tries):` retry loop of `SpotifyAPI.get`.
`attempt k` is the outcome of the `k`-th request/parse attempt (`some j`:
the attempt returned parsed JSON `j`; `none`: it raised — network error,
non-2xx, or malformed JSON).  On success the JSON is returned at once; on
failure the code sleeps 2 seconds and retries; after the loop,
`sys.exit(1)`. -/
def getLoop {J : Type} (attempt : Nat → Option J) :
    Nat → Nat → GetTrace J
  | _, 0 => { result := .exit 1, attempts := 0, sleeps := [] }
  | k, rem + 1 =>
    match attempt k with
    | some j => { result := .ok j, attempts := 1, sleeps := [] }
    | none =>
      let t := getLoop attempt (k + 1) rem
      { result := t.result, attempts := t.attempts + 1, sleeps := 2 :: t.sleeps }

/-- Model of `SpotifyAPI.get(url, params, tries=3)`: run the retry loop starting at
attempt 0.  Every call site of `get` in the script uses the default
`tries = 3`. -/
def get {J : Type} (attempt : Nat → Option J) (tries : Nat := 3) :
    GetTrace J :=
  getLoop attempt 0 tries

/-! ## URL construction inside `SpotifyAPI.get` -/

/-- The fixed API base the code prefixes onto relative resource paths. -/
def API_BASE : PyStr := "https://api.spotify.com/v1/".toList

/-- The URL-construction prelude of `SpotifyAPI.get`:

    if not url.startswith("https://api.spotify.com/v1/"):
        url = "https://api.spotify.com/v1/" + url
    if params:
        url += ("&" if "?" in url else "?") + urllib.parse.urlencode(params)

`urlencode` (the external `urllib.parse.urlencode`) is a parameter. -/
def buildRequestURL (urlencode : List (PyStr × PyStr) → PyStr)
    (url : PyStr) (params : List (PyStr × PyStr)) : PyStr :=
  let url1 := if pyStartswith url API_BASE then url else API_BASE ++ url
  if params.isEmpty then url1
  else url1 ++ (if url1.contains '?' then ['&'] else ['?']) ++ urlencode params

/-! ## Python exceptions of the client -/

/-- The exceptions that the modelled code can raise:
`requestException` (the `requests.post` call failed),
`keyError k` (a dictionary lookup `d[k]` on a missing key),
`attributeError` (`.group(1)` on the `None` returned by a failed
`re.search`), and `authorization tok` (the `SpotifyAPI._Authorization`
control-flow exception carrying the captured access token). -/
inductive PyExc where
  | requestException
  | keyError (key : PyStr)
  | attributeError
  | authorization (access_token : PyStr)
deriving DecidableEq

/-! ## Refresh-token exchange (`SpotifyAPI.generate`) -/

/-- The single outbound POST of `SpotifyAPI.generate`: target URL, form
payload (`data=`) and headers. -/
structure TokenRequest where
  url : PyStr
  payload : List (PyStr × PyStr)
  headers : List (PyStr × PyStr)
deriving DecidableEq

/-- Outcome of the external `requests.post` call: a parsed JSON object
(modelled as a flat string-to-string association list, which covers token
responses), or a raised exception. -/
inductive PostResult where
  | ok (json : List (PyStr × PyStr))
  | raised
deriving DecidableEq

/-- Python dictionary lookup `d[k]`, first binding wins. -/
def dictGet (d : List (PyStr × PyStr)) (k : PyStr) : Option PyStr :=
  (d.find? (fun kv => kv.1 == k)).map (fun kv => kv.2)

/-- The exact request `SpotifyAPI.generate` builds: the token endpoint,
`grant_type=refresh_token` plus the refresh token in the body, and the
client id and secret in an HTTP Basic `Authorization` header (via the
external `base64.b64encode`, a parameter). -/
def tokenExchangeRequest (b64encode : PyStr → PyStr)
    (client_id secret_id refresh_token : PyStr) : TokenRequest :=
  { url := "https://accounts.spotify.com/api/token".toList,
    payload := [("grant_type".toList, "refresh_token".toList),
                ("refresh_token".toList, refresh_token)],
    headers := [("Authorization".toList,
                 "Basic ".toList ++ b64encode (client_id ++ ":".toList ++ secret_id))] }

/-- Model of `SpotifyAPI.generate(client_id, secret_id, refresh_token)`: one POST
to the token endpoint, then `SpotifyAPI(r.json()['access_token'])`.
Returns the list of requests performed together with either the built
client or the raised exception (nothing is caught, nothing retried). -/
def generate (b64encode : PyStr → PyStr) (post : TokenRequest → PostResult)
    (client_id secret_id refresh_token : PyStr) :
    List TokenRequest × Except PyExc SpotifyAPI :=
  let req := tokenExchangeRequest b64encode client_id secret_id refresh_token
  match post req with
  | .raised => ([req], .error .requestException)
  | .ok j =>
    match dictGet j "access_token".toList with
    | none => ([req], .error (.keyError "access_token".toList))
    | some t => ([req], .ok ⟨t⟩)

/-! ## The local callback listener
(`SpotifyAPI._AuthorizationHandler.do_GET`,
`SpotifyAPI._AuthorizationServer.handle_error`, `SpotifyAPI.authorize`) -/

/-- The bridge page served for `/redirect`: a script that promotes the URL
fragment into a query string by re-navigating to `token?<hash-contents>`
(which, relative to the page `/redirect`, is the path `/token?...`). -/
def redirectBody : PyStr :=
  "<script>location.replace(\"token?\" + location.hash.slice(1));</script>".toList

/-- The confirmation page served for `/token?...`. -/
def tokenBody : PyStr :=
  "<script>close()</script>Thanks! You may now close this window.".toList

/-- An HTTP response of the listener: status code and body. -/
structure HttpResponse where
  status : Nat
  body : PyStr
deriving DecidableEq

/-- What one `do_GET` call does: send a response and return normally
(listener keeps serving), or send a response and then raise `e`. -/
inductive HandlerOutcome where
  | respond (r : HttpResponse)
  | raised (r : HttpResponse) (e : PyExc)
deriving DecidableEq

/-- The regex pattern `access_token=` of
`re.search("access_token=([^&]*)", self.path)`. -/
def accessTokenPat : PyStr := "access_token=".toList

/-- Model of `re.search("access_token=([^&]*)", path)` followed by `.group(1)`:
scan for the first occurrence of `access_token=` and capture the maximal
following run of non-`&` characters; `none` when the pattern does not
occur (in the code, `.group(1)` on `None` then raises). -/
def reSearchAccessToken : PyStr → Option PyStr
  | [] => none
  | c :: cs =>
    if accessTokenPat.isPrefixOf (c :: cs) then
      some (((c :: cs).drop accessTokenPat.length).takeWhile (fun ch => ch ≠ '&'))
    else reSearchAccessToken cs

/-- Model of `SpotifyAPI._AuthorizationHandler.do_GET`, as a function of
`self.path`:
* a path starting with `/redirect` is answered 200 with the bridge page;
* a path starting with `/token?` is answered 200 with the confirmation
  page, and then the handler raises: `_Authorization(token)` when the
  regex captures a token, `AttributeError` when it does not;
* any other path is answered with `send_error(404)`. -/
def do_GET (path : PyStr) : HandlerOutcome :=
  if pyStartswith path ("/redirect".toList) then
    .respond ⟨200, redirectBody⟩
  else if pyStartswith path ("/token?".toList) then
    match reSearchAccessToken path with
    | some tok => .raised ⟨200, tokenBody⟩ (.authorization tok)
    | none => .raised ⟨200, tokenBody⟩ .attributeError
  else
    .respond ⟨404, []⟩

/-- Model of `SpotifyAPI._AuthorizationServer.handle_error`: a bare `raise`, which
re-raises the in-flight exception unconditionally. -/
def handle_error (e : PyExc) : Except PyExc Unit := .error e

/-- The default `socketserver.BaseServer.handle_error` that the override
replaces: it prints the traceback and swallows the exception. -/
def default_handle_error (_e : PyExc) : Except PyExc Unit := .ok ()

/-- Model of `server.handle_request()` for one incoming GET: run `do_GET`; if it
raised, the server consults `onError` (the `handle_error` hook) — if that
returns, the exception is suppressed and serving continues, if it raises,
the exception escapes `handle_request`. -/
def handle_request (onError : PyExc → Except PyExc Unit) (path : PyStr) :
    Except PyExc HttpResponse :=
  match do_GET path with
  | .respond r => .ok r
  | .raised r e =>
    match onError e with
    | .ok _ => .ok r
    | .error e2 => .error e2

/-- How `SpotifyAPI.authorize`'s serving loop ends, as seen by its
caller. -/
inductive AuthorizeOutcome where
  | ok (api : SpotifyAPI)
  | raised (e : PyExc)
  | blocked
deriving DecidableEq

/-- The `try: while True: server.handle_request() / except _Authorization`
loop of `SpotifyAPI.authorize`, run over a (finite) stream of incoming
request paths: requests are served one at a time with the listener's
`handle_error`; an escaping `_Authorization` is caught and converted into
the client object; any other escaping exception propagates to the caller;
with no request left the loop blocks waiting. -/
def authorizeServe : List PyStr → AuthorizeOutcome
  | [] => .blocked
  | p :: ps =>
    match handle_request handle_error p with
    | .ok _ => authorizeServe ps
    | .error (.authorization tok) => .ok ⟨tok⟩
    | .error e => .raised e

/-! ## Theorems -/

theorem listLoop_pageAt {α : Type} (ps : List (List α)) (total fuel : Nat) :
    ∀ (i : Nat) (acc : List α), ps.length ≤ i + 1 + fuel →
      listLoop (pageAt ps total) fuel (pageAt ps total i) acc =
        acc ++ (ps.drop (i + 1)).flatten := by
  induction fuel with
  | zero =>
    intro i acc h
    rw [List.drop_eq_nil_of_le (by omega), List.flatten_nil, List.append_nil]
    rfl
  | succ fuel ih =>
    intro i acc h
    by_cases hi : i + 1 < ps.length
    · have h1 : (pageAt ps total i).next = some (i + 1) := by
        simp [pageAt, hi]
      rw [listLoop, h1]
      show listLoop (pageAt ps total) fuel (pageAt ps total (i + 1))
        (acc ++ (pageAt ps total (i + 1)).items) = _
      rw [ih (i + 1) _ (by omega)]
      have hitems : (pageAt ps total (i + 1)).items = ps[i + 1] := by
        simp [pageAt, List.getElem?_eq_getElem hi]
      rw [hitems, List.drop_eq_getElem_cons hi, List.flatten_cons, List.append_assoc]
    · have h1 : (pageAt ps total i).next = none := by
        simp [pageAt, hi]
      rw [listLoop, h1]
      rw [List.drop_eq_nil_of_le (by omega), List.flatten_nil, List.append_nil]

theorem list_pageAt_eq_flatten {α : Type} (ps : List (List α)) (total fuel : Nat)
    (hne : ps ≠ []) (hfuel : ps.length ≤ fuel + 1) :
    list (pageAt ps total) fuel 0 = ps.flatten := by
  obtain ⟨h, t, rfl⟩ : ∃ h t, ps = h :: t := by
    cases ps with
    | nil => exact absurd rfl hne
    | cons h t => exact ⟨h, t, rfl⟩
  show listLoop _ fuel (pageAt (h :: t) total 0) (pageAt (h :: t) total 0).items = _
  rw [listLoop_pageAt _ _ _ 0 _ (by simp at hfuel ⊢; omega)]
  simp [pageAt]

theorem list_artists_loop_eq {υ α : Type} (fetch : υ → ArtistsResponse υ α)
    (fuel : Nat) : ∀ (r : ArtistsResponse υ α) (acc : List α),
    list_artists_loop fetch fuel r acc =
      listLoop (fun u => (fetch u).artists) fuel r.artists acc := by
  induction fuel with
  | zero => intro r acc; rfl
  | succ fuel ih =>
    intro r acc
    rw [list_artists_loop, listLoop]
    cases hr : r.artists.next with
    | none => rfl
    | some u => exact ih _ _

theorem list_artists_eq_list {υ α : Type} (fetch : υ → ArtistsResponse υ α)
    (fuel : Nat) (url : υ) :
    list_artists fetch fuel url = list (fun u => (fetch u).artists) fuel url := by
  unfold list_artists list
  exact list_artists_loop_eq fetch fuel (fetch url) (fetch url).artists.items

/-- Claim C1: for every paginated resource of pages `ps` (each page carrying
an `items` list, a `next` cursor that is a URL on all but the last page and
null on the last, and a `total`), `SpotifyAPI.list` returns exactly the
`N = (ps.map List.length).sum` items, in server order concatenated in
cursor-traversal order, regardless of the number of pages `P = ps.length`;
in particular a first page with zero items and a null cursor yields the
empty sequence (the loop terminates: the result is the same for every
sufficiently large fuel). -/
theorem list_returns_all_items (α : Type) (ps : List (List α)) (total fuel : Nat)
    (hne : ps ≠ []) (hfuel : ps.length ≤ fuel + 1) :
    list (pageAt ps total) fuel 0 = ps.flatten ∧
    (list (pageAt ps total) fuel 0).length = (ps.map List.length).sum ∧
    (∀ total2 fuel2 : Nat, list (pageAt ([[]] : List (List α)) total2) fuel2 0 = []) := by
  refine ⟨list_pageAt_eq_flatten ps total fuel hne hfuel, ?_, ?_⟩
  · rw [list_pageAt_eq_flatten ps total fuel hne hfuel, List.length_flatten]
  · intro total2 fuel2
    have h := list_pageAt_eq_flatten ([[]] : List (List α)) total2 fuel2
      (by simp) (by simp)
    simpa using h

theorem list_returns_all_items_witness :
    list (pageAt ([[1, 2], [3]] : List (List Nat)) 3) 1 0 = [1, 2, 3] ∧
    (list (pageAt ([[1, 2], [3]] : List (List Nat)) 3) 1 0).length = 3 := by
  have h := list_returns_all_items Nat [[1, 2], [3]] 3 1 (by decide) (by decide)
  exact ⟨by rw [h.1]; rfl, by rw [h.2.1]; rfl⟩

/-- Claim C7: for responses whose paginated envelope is nested one level
deep under an `artists` key, `SpotifyAPI.list_artists` unwraps exactly that
one level: a single first page with a null cursor yields exactly the inner
items list, and across multiple pages the inner items are concatenated in
cursor-traversal order. -/
theorem list_artists_unwraps (α : Type) (ps : List (List α)) (total fuel : Nat)
    (hne : ps ≠ []) (hfuel : ps.length ≤ fuel + 1) :
    list_artists (artistsPageAt ps total) fuel 0 = ps.flatten ∧
    (∀ (items : List α) (t2 f2 : Nat),
      list_artists (artistsPageAt [items] t2) f2 0 = items) := by
  constructor
  · rw [list_artists_eq_list]
    exact list_pageAt_eq_flatten ps total fuel hne hfuel
  · intro items t2 f2
    rw [list_artists_eq_list]
    have h := list_pageAt_eq_flatten [items] t2 f2 (by simp) (by simp)
    simpa using h

theorem list_artists_unwraps_witness :
    list_artists (artistsPageAt ([[10], [20, 30]] : List (List Nat)) 3) 1 0 =
      [10, 20, 30] := by
  have h := list_artists_unwraps Nat [[10], [20, 30]] 3 1 (by decide) (by decide)
  rw [h.1]; rfl

/-- Claim C2: when every attempt fails (network error, non-2xx, or
malformed JSON, all modelled by `attempt k = none`), `SpotifyAPI.get`
performs exactly 3 attempts — not fewer, not more — sleeping a fixed
2 seconds after each failure, and then terminates the whole process with
the non-zero exit status 1; when the first success is attempt `k < 3`, the
call returns that attempt's parsed JSON after exactly `k + 1` attempts with
no further ones. -/
theorem get_retry_policy (J : Type) (attempt : Nat → Option J) :
    ((∀ k, k < 3 → attempt k = none) →
      get attempt 3 = { result := .exit 1, attempts := 3, sleeps := [2, 2, 2] }) ∧
    (∀ k j, k < 3 → (∀ m, m < k → attempt m = none) → attempt k = some j →
      get attempt 3 = { result := .ok j, attempts := k + 1,
                        sleeps := List.replicate k 2 }) := by
  constructor
  · intro h
    have h0 := h 0 (by omega)
    have h1 := h 1 (by omega)
    have h2 := h 2 (by omega)
    show getLoop attempt 0 3 = _
    rw [getLoop, h0, getLoop, h1, getLoop, h2, getLoop]
  · intro k j hk hm hs
    interval_cases k
    · show getLoop attempt 0 3 = _
      rw [getLoop, hs]
      rfl
    · have h0 := hm 0 (by omega)
      show getLoop attempt 0 3 = _
      rw [getLoop, h0, getLoop, hs]
      rfl
    · have h0 := hm 0 (by omega)
      have h1 := hm 1 (by omega)
      show getLoop attempt 0 3 = _
      rw [getLoop, h0, getLoop, h1, getLoop, hs]
      rfl

theorem get_retry_policy_witness :
    get (fun _ => (none : Option Nat)) 3 =
      { result := .exit 1, attempts := 3, sleeps := [2, 2, 2] } ∧
    get (fun k => if k = 1 then some 7 else (none : Option Nat)) 3 =
      { result := .ok 7, attempts := 2, sleeps := [2] } := by
  constructor
  · exact (get_retry_policy Nat (fun _ => none)).1 (fun k _ => rfl)
  · exact (get_retry_policy Nat (fun k => if k = 1 then some 7 else none)).2
      1 7 (by decide) (by decide) rfl

/-- Claim C6: URL construction in `SpotifyAPI.get`: a URL that does not
start with the fixed API base (a relative resource path) is prefixed with
`https://api.spotify.com/v1/`, while a URL already under the base (an
absolute `next` URL returned by the server) is used verbatim; supplied
query parameters are appended to the resulting URL with `&` if it already
contains a `?` and with `?` otherwise, preserving the pre-existing query
string, and an empty parameter dictionary appends nothing. -/
theorem get_url_construction (urlencode : List (PyStr × PyStr) → PyStr)
    (url : PyStr) (params : List (PyStr × PyStr)) :
    (pyStartswith url API_BASE = true → params = [] →
      buildRequestURL urlencode url params = url) ∧
    (pyStartswith url API_BASE = false → params = [] →
      buildRequestURL urlencode url params = API_BASE ++ url) ∧
    (pyStartswith url API_BASE = true → params ≠ [] →
      buildRequestURL urlencode url params =
        url ++ (if url.contains '?' then ['&'] else ['?']) ++ urlencode params) ∧
    (pyStartswith url API_BASE = false → params ≠ [] →
      buildRequestURL urlencode url params =
        (API_BASE ++ url) ++
          (if (API_BASE ++ url).contains '?' then ['&'] else ['?']) ++
          urlencode params) := by
  refine ⟨?_, ?_, ?_, ?_⟩ <;> intro h1 h2 <;>
    simp [buildRequestURL, h1, h2]

theorem get_url_construction_witness :
    buildRequestURL (fun _ => "limit=50".toList) ("me/albums".toList)
      [("limit".toList, "50".toList)] =
      ("https://api.spotify.com/v1/me/albums?limit=50".toList) := by
  have h := (get_url_construction (fun _ => "limit=50".toList) ("me/albums".toList)
    [("limit".toList, "50".toList)]).2.2.2 (by decide) (by decide)
  rw [h]
  decide

/-- Claim C4: `SpotifyAPI.generate` performs exactly one token-exchange
POST — the request list is the singleton whose header carries the client
id and secret via HTTP Basic authorization and whose body carries
`grant_type=refresh_token` and the refresh token — and when the token
endpoint answers with JSON containing `access_token = X`, the resulting
Credential's bearer token `_auth` equals `X`. -/
theorem generate_token_exchange (b64encode : PyStr → PyStr)
    (post : TokenRequest → PostResult)
    (client_id secret_id refresh_token X : PyStr)
    (hpost : post (tokenExchangeRequest b64encode client_id secret_id refresh_token) =
      .ok [("access_token".toList, X)]) :
    generate b64encode post client_id secret_id refresh_token =
      ([{ url := "https://accounts.spotify.com/api/token".toList,
          payload := [("grant_type".toList, "refresh_token".toList),
                      ("refresh_token".toList, refresh_token)],
          headers := [("Authorization".toList,
              "Basic ".toList ++
                b64encode (client_id ++ ":".toList ++ secret_id))] }],
        .ok ⟨X⟩) := by
  simp only [generate, hpost]
  simp [dictGet, List.find?, tokenExchangeRequest]

theorem generate_token_exchange_witness :
    generate (fun s => s) (fun _ => .ok [("access_token".toList, "X".toList)])
      ("id".toList) ("sec".toList) ("ref".toList) =
      ([{ url := "https://accounts.spotify.com/api/token".toList,
          payload := [("grant_type".toList, "refresh_token".toList),
                      ("refresh_token".toList, "ref".toList)],
          headers := [("Authorization".toList,
              "Basic ".toList ++ ("id:sec".toList))] }],
        .ok ⟨"X".toList⟩) := by
  have h := generate_token_exchange (fun s => s)
    (fun _ => .ok [("access_token".toList, "X".toList)])
    ("id".toList) ("sec".toList) ("ref".toList) ("X".toList) rfl
  rw [h]
  rfl

/-- Claim C5: if the HTTP POST of `SpotifyAPI.generate` raises, or the
JSON response lacks an `access_token` field, the error propagates (a
`requests` exception or `KeyError`; the spec's CredentialExchangeFailed)
and no Credential is produced; in both cases exactly one exchange request
is performed — there is no retry. -/
theorem generate_failure_propagates (b64encode : PyStr → PyStr)
    (post : TokenRequest → PostResult)
    (client_id secret_id refresh_token : PyStr) :
    (post (tokenExchangeRequest b64encode client_id secret_id refresh_token) =
        .raised →
      generate b64encode post client_id secret_id refresh_token =
        ([tokenExchangeRequest b64encode client_id secret_id refresh_token],
          .error .requestException)) ∧
    (∀ j, post (tokenExchangeRequest b64encode client_id secret_id refresh_token) =
        .ok j →
      dictGet j ("access_token".toList) = none →
      generate b64encode post client_id secret_id refresh_token =
        ([tokenExchangeRequest b64encode client_id secret_id refresh_token],
          .error (.keyError ("access_token".toList)))) := by
  constructor
  · intro h
    simp [generate, h]
  · intro j h hj
    simp only [generate, h]
    rw [hj]

theorem generate_failure_propagates_witness :
    (generate (fun s => s) (fun _ => .raised)
        ("id".toList) ("sec".toList) ("ref".toList)).2 =
      .error .requestException ∧
    (generate (fun s => s) (fun _ => .ok [("error".toList, "bad".toList)])
        ("id".toList) ("sec".toList) ("ref".toList)).2 =
      .error (.keyError ("access_token".toList)) := by
  constructor
  · have h := (generate_failure_propagates (fun s => s) (fun _ => .raised)
      ("id".toList) ("sec".toList) ("ref".toList)).1 rfl
    rw [h]
  · have h := (generate_failure_propagates (fun s => s)
      (fun _ => .ok [("error".toList, "bad".toList)])
      ("id".toList) ("sec".toList) ("ref".toList)).2
      [("error".toList, "bad".toList)] rfl (by decide)
    rw [h]

theorem bool_ne_true {b : Bool} (h : b = false) : ¬(b = true) :=
  fun hc => Bool.noConfusion (h ▸ hc)

theorem not_redirect_of_token {p : PyStr}
    (h : pyStartswith p ("/token?".toList) = true) :
    pyStartswith p ("/redirect".toList) = false := by
  unfold pyStartswith at h ⊢
  rw [List.isPrefixOf_iff_prefix] at h
  obtain ⟨t, rfl⟩ := h
  have hrt : ('r' == 't') = false := rfl
  simp only [List.isPrefixOf, hrt, Bool.false_and, Bool.and_false]

theorem do_GET_redirect {p : PyStr}
    (h : pyStartswith p ("/redirect".toList) = true) :
    do_GET p = .respond ⟨200, redirectBody⟩ := by
  unfold do_GET
  rw [if_pos h]

theorem do_GET_token {p : PyStr}
    (hred : pyStartswith p ("/redirect".toList) = false)
    (htok : pyStartswith p ("/token?".toList) = true) :
    do_GET p = match reSearchAccessToken p with
      | some tok => .raised ⟨200, tokenBody⟩ (.authorization tok)
      | none => .raised ⟨200, tokenBody⟩ .attributeError := by
  unfold do_GET
  rw [if_neg (bool_ne_true hred), if_pos htok]

theorem do_GET_other {p : PyStr}
    (h1 : pyStartswith p ("/redirect".toList) = false)
    (h2 : pyStartswith p ("/token?".toList) = false) :
    do_GET p = .respond ⟨404, []⟩ := by
  unfold do_GET
  rw [if_neg (bool_ne_true h1), if_neg (bool_ne_true h2)]

theorem handle_request_respond (onError : PyExc → Except PyExc Unit)
    {p : PyStr} {r : HttpResponse} (h : do_GET p = .respond r) :
    handle_request onError p = .ok r := by
  unfold handle_request
  rw [h]

theorem handle_request_raised {p : PyStr} {r : HttpResponse} {e : PyExc}
    (h : do_GET p = .raised r e) :
    handle_request handle_error p = .error e := by
  unfold handle_request
  rw [h]
  rfl

theorem handle_request_raised_default {p : PyStr} {r : HttpResponse} {e : PyExc}
    (h : do_GET p = .raised r e) :
    handle_request default_handle_error p = .ok r := by
  unfold handle_request
  rw [h]
  rfl

theorem authorizeServe_cons_ok {p : PyStr} {r : HttpResponse} (ps : List PyStr)
    (h : handle_request handle_error p = .ok r) :
    authorizeServe (p :: ps) = authorizeServe ps := by
  show (match handle_request handle_error p with
    | .ok _ => authorizeServe ps
    | .error (.authorization tok) => AuthorizeOutcome.ok ⟨tok⟩
    | .error e => .raised e) = authorizeServe ps
  rw [h]

theorem authorizeServe_cons_auth {p : PyStr} {tok : PyStr} (ps : List PyStr)
    (h : handle_request handle_error p = .error (.authorization tok)) :
    authorizeServe (p :: ps) = .ok ⟨tok⟩ := by
  show (match handle_request handle_error p with
    | .ok _ => authorizeServe ps
    | .error (.authorization tok) => AuthorizeOutcome.ok ⟨tok⟩
    | .error e => .raised e) = .ok ⟨tok⟩
  rw [h]

theorem authorizeServe_cons_raised {p : PyStr} (ps : List PyStr)
    (h : handle_request handle_error p = .error .attributeError) :
    authorizeServe (p :: ps) = .raised .attributeError := by
  show (match handle_request handle_error p with
    | .ok _ => authorizeServe ps
    | .error (.authorization tok) => AuthorizeOutcome.ok ⟨tok⟩
    | .error e => .raised e) = .raised .attributeError
  rw [h]

theorem reSearch_none_of_not_contains : ∀ {s : PyStr},
    containsSub accessTokenPat s = false → reSearchAccessToken s = none := by
  intro s
  induction s with
  | nil => intro _; rfl
  | cons c cs ih =>
    intro h
    rw [containsSub, Bool.or_eq_false_iff] at h
    rw [reSearchAccessToken, if_neg (bool_ne_true h.1)]
    exact ih h.2

theorem reSearch_cons (c : Char) (cs : PyStr) :
    reSearchAccessToken (c :: cs) =
      if accessTokenPat.isPrefixOf (c :: cs) then
        some (((c :: cs).drop accessTokenPat.length).takeWhile (fun ch => ch ≠ '&'))
      else reSearchAccessToken cs := by
  rw [reSearchAccessToken]

theorem reSearch_append (pre : PyStr) : ∀ (rest : PyStr),
    (∀ k, k < pre.length →
      accessTokenPat.isPrefixOf ((pre ++ (accessTokenPat ++ rest)).drop k) = false) →
    reSearchAccessToken (pre ++ (accessTokenPat ++ rest)) =
      some (rest.takeWhile (fun ch => ch ≠ '&')) := by
  induction pre with
  | nil =>
    intro rest _
    have hsplit : accessTokenPat ++ rest = 'a' :: ("ccess_token=".toList ++ rest) := by
      rw [show accessTokenPat = 'a' :: "ccess_token=".toList from by decide,
        List.cons_append]
    have hcond : accessTokenPat.isPrefixOf (accessTokenPat ++ rest) = true := by
      rw [List.isPrefixOf_iff_prefix]
      exact List.prefix_append _ _
    rw [List.nil_append, hsplit, reSearch_cons]
    rw [hsplit] at hcond
    rw [if_pos hcond, ← hsplit, List.drop_left]
  | cons c pre ih =>
    intro rest h
    have h0 := h 0 (by simp)
    rw [List.drop_zero] at h0
    have h0c : accessTokenPat.isPrefixOf
        (c :: (pre ++ (accessTokenPat ++ rest))) = false := h0
    show reSearchAccessToken (c :: (pre ++ (accessTokenPat ++ rest))) = _
    rw [reSearch_cons, if_neg (bool_ne_true h0c)]
    refine ih rest (fun k hk => ?_)
    have hs := h (k + 1) (by simp; omega)
    have hz : ((c :: pre) ++ (accessTokenPat ++ rest)).drop (k + 1) =
        (pre ++ (accessTokenPat ++ rest)).drop k := rfl
    rw [hz] at hs
    exact hs

/-- Claim C3: the callback listener's request handler implements the
spec's state machine: a GET whose path starts with `/redirect` is answered
200 with an HTML body containing the script that re-navigates to
`token?` + the fragment contents (which resolves to `/token?...`), leaving
the listener serving; a subsequent GET to `/token?access_token=ABC` is
answered 200 and stops the serving loop, yielding a client whose token is
`ABC`; any other path is answered 404 with the listener still serving. -/
theorem do_GET_state_machine (p : PyStr) (ps : List PyStr) :
    (pyStartswith p ("/redirect".toList) = true →
      do_GET p = .respond ⟨200, redirectBody⟩ ∧
      containsSub ("location.replace(\"token?\" + location.hash.slice(1));".toList)
        redirectBody = true ∧
      authorizeServe (p :: ps) = authorizeServe ps) ∧
    (do_GET ("/token?access_token=ABC".toList) =
        .raised ⟨200, tokenBody⟩ (.authorization ("ABC".toList)) ∧
      authorizeServe (("/token?access_token=ABC".toList) :: ps) =
        .ok ⟨"ABC".toList⟩) ∧
    (pyStartswith p ("/redirect".toList) = false →
      pyStartswith p ("/token?".toList) = false →
      do_GET p = .respond ⟨404, []⟩ ∧
      authorizeServe (p :: ps) = authorizeServe ps) := by
  refine ⟨?_, ⟨by decide, ?_⟩, ?_⟩
  · intro h
    have hdo := do_GET_redirect h
    exact ⟨hdo, by decide,
      authorizeServe_cons_ok ps (handle_request_respond handle_error hdo)⟩
  · have hdo : do_GET ("/token?access_token=ABC".toList) =
        .raised ⟨200, tokenBody⟩ (.authorization ("ABC".toList)) := by decide
    exact authorizeServe_cons_auth ps (handle_request_raised hdo)
  · intro h1 h2
    have hdo := do_GET_other h1 h2
    exact ⟨hdo,
      authorizeServe_cons_ok ps (handle_request_respond handle_error hdo)⟩

theorem do_GET_state_machine_witness :
    do_GET ("/redirect".toList) = .respond ⟨200, redirectBody⟩ ∧
    authorizeServe ["/redirect".toList, "/token?access_token=ABC".toList] =
      .ok ⟨"ABC".toList⟩ ∧
    do_GET ("/favicon.ico".toList) = .respond ⟨404, []⟩ := by
  have h1 := (do_GET_state_machine ("/redirect".toList)
    ["/token?access_token=ABC".toList]).1 (by decide)
  have h2 := (do_GET_state_machine ("/redirect".toList) []).2.1
  have h3 := (do_GET_state_machine ("/favicon.ico".toList) []).2.2
    (by decide) (by decide)
  exact ⟨h1.1, by rw [h1.2.2]; exact h2.2, h3.1⟩

/-- Claim C8: the listener's `handle_error` override re-raises
unconditionally, so every exception raised while handling a request
escapes `handle_request` and propagates to `authorize`'s serving loop —
unlike the default `handle_error`, which would swallow it and keep
serving; a non-`_Authorization` exception then escapes the loop itself. -/
theorem handle_error_reraises (e : PyExc) (p : PyStr) (r : HttpResponse)
    (ps : List PyStr) :
    handle_error e = .error e ∧
    (do_GET p = .raised r e → handle_request handle_error p = .error e) ∧
    (do_GET p = .raised r e → handle_request default_handle_error p = .ok r) ∧
    (do_GET p = .raised r .attributeError →
      authorizeServe (p :: ps) = .raised .attributeError) := by
  refine ⟨rfl, ?_, ?_, ?_⟩
  · intro h
    exact handle_request_raised h
  · intro h
    exact handle_request_raised_default h
  · intro h
    exact authorizeServe_cons_raised ps (handle_request_raised h)

theorem handle_error_reraises_witness :
    handle_request handle_error ("/token?access_token=ABC".toList) =
      .error (.authorization ("ABC".toList)) ∧
    handle_request default_handle_error ("/token?access_token=ABC".toList) =
      .ok ⟨200, tokenBody⟩ := by
  have h := handle_error_reraises (.authorization ("ABC".toList))
    ("/token?access_token=ABC".toList) ⟨200, tokenBody⟩ []
  exact ⟨h.2.1 (by decide), h.2.2.1 (by decide)⟩

/-- Claim C9: a GET whose path starts with `/token?` but contains no
`access_token=` substring makes the handler raise (`.group(1)` on a failed
regex match) after writing the 200 confirmation page — it neither captures
a token nor returns a 404 — and by the `handle_error` override this
exception propagates out of the serving loop instead of the listener
continuing to serve. -/
theorem token_path_without_access_token_raises (p : PyStr) (ps : List PyStr)
    (htok : pyStartswith p ("/token?".toList) = true)
    (hno : containsSub accessTokenPat p = false) :
    do_GET p = .raised ⟨200, tokenBody⟩ .attributeError ∧
    handle_request handle_error p = .error .attributeError ∧
    authorizeServe (p :: ps) = .raised .attributeError := by
  have hred := not_redirect_of_token htok
  have hre : reSearchAccessToken p = none := reSearch_none_of_not_contains hno
  have hdo : do_GET p = .raised ⟨200, tokenBody⟩ .attributeError := by
    rw [do_GET_token hred htok, hre]
  exact ⟨hdo, handle_request_raised hdo,
    authorizeServe_cons_raised ps (handle_request_raised hdo)⟩

theorem token_path_without_access_token_raises_witness :
    do_GET ("/token?error=denied".toList) =
      .raised ⟨200, tokenBody⟩ .attributeError ∧
    authorizeServe ["/token?error=denied".toList] = .raised .attributeError := by
  have h := token_path_without_access_token_raises
    ("/token?error=denied".toList) [] (by decide) (by decide)
  exact ⟨h.1, h.2.2⟩

/-- Claim C10: token extraction from the `/token` request path is
position-independent: for every path of the form `/token?...` in which
`access_token=` occurs, the captured token is the maximal substring
following the first occurrence of `access_token=` that contains no `&`
(the hypothesis states that the occurrence after `/token?` ++ `mid` is the
first one). -/
theorem access_token_extraction_first_match (mid rest : PyStr)
    (h : ∀ k, k < ("/token?".toList ++ mid).length →
      accessTokenPat.isPrefixOf
        ((("/token?".toList ++ mid) ++ (accessTokenPat ++ rest)).drop k) = false) :
    do_GET (("/token?".toList ++ mid) ++ (accessTokenPat ++ rest)) =
      .raised ⟨200, tokenBody⟩
        (.authorization (rest.takeWhile (fun ch => ch ≠ '&'))) := by
  have htok : pyStartswith (("/token?".toList ++ mid) ++ (accessTokenPat ++ rest))
      ("/token?".toList) = true := by
    unfold pyStartswith
    rw [List.isPrefixOf_iff_prefix, List.append_assoc]
    exact List.prefix_append _ _
  have hred := not_redirect_of_token htok
  have hre := reSearch_append ("/token?".toList ++ mid) rest h
  rw [do_GET_token hred htok, hre]

theorem access_token_extraction_first_match_witness :
    do_GET ("/token?foo=1&access_token=ABC&bar=2".toList) =
      .raised ⟨200, tokenBody⟩ (.authorization ("ABC".toList)) := by
  exact access_token_extraction_first_match
    ("foo=1&".toList) ("ABC&bar=2".toList) (by decide)

end SpotifyBackup
